import Mathlib

/-!
Verification of the drive-chatbot client against its specification.

The development shallowly embeds the client-side session and chat-turn
orchestration layer of the repository:

* the shared data model (`lib/types.ts`);
* the network boundary `sendChatMessage` / `fetchFolders` (`lib/api.ts`),
  with the browser transport abstracted as a `FetchOutcome` and the
  browser-visible side effects (local storage, redirect) as an explicit
  `BrowserState`;
* the chat-turn state machine of `ChatWindow.handleSend`, split at its
  single suspension point into a submit phase and a resolve phase, with
  the two cosmetic stage timeouts modelled as generation-tagged timers;
* the OAuth-callback ingestion / session-restore effect of `Home`
  (`app/page.tsx`);
* the folder-selector dropdown (`components/FolderSelector.tsx`), whose
  fetch-triggering `useEffect` is modelled with explicit dependency
  tracking on `(isOpen, folders.length)`.

Nondeterministic inputs of the source (`Math.random`-based ids, `Date.now`)
are passed in as oracle parameters; they influence no proved property.
-/

namespace DriveChatbot

/-! ### Data model (lib/types.ts) -/

/-- `role: "user" | "assistant"` on a `Message`. -/
inductive Role where
  | user
  | assistant
deriving DecidableEq, Repr

/-- The type of `action_input`: `string | number | boolean | Record | null`.
Records are kept abstract (opaque to this layer beyond display). -/
inductive ActionInput where
  | str (s : String)
  | num (n : Int)
  | boolean (b : Bool)
  | record (fields : List (String × String))
  | null
deriving DecidableEq, Repr

/-- `IntermediateStep` from lib/types.ts. -/
structure IntermediateStep where
  thought : String
  action : String
  action_input : ActionInput
  observation : String
deriving DecidableEq, Repr

/-- `Message` from lib/types.ts.  `timestamp: Date` is modelled as an
abstract tick; the optional fields `steps?`, `isError?`, `tokens?` become
`Option`s. -/
structure Message where
  id : String
  role : Role
  content : String
  timestamp : Nat
  steps : Option (List IntermediateStep) := none
  isError : Option Bool := none
  tokens : Option Nat := none
deriving DecidableEq, Repr

/-- `ChatResponse` from lib/types.ts; `error: string | null` becomes an
`Option String` (so `some ""` and `none` are both JS-falsy). -/
structure ChatResponse where
  answer : String
  intermediate_steps : List IntermediateStep
  tokens : Nat
  error : Option String
deriving DecidableEq, Repr

/-- `User` from lib/types.ts (the Session of the spec). -/
structure User where
  email : String
  name : String
  picture : String
  token : String
deriving DecidableEq, Repr

/-- A folder as returned by the folders endpoint: `{id, name}`. -/
structure Folder where
  id : String
  name : String
deriving DecidableEq, Repr

/-- JS truthiness of a `string | null` value: `null` and `""` are falsy. -/
def jsTruthy : Option String → Bool
  | none => false
  | some s => s ≠ ""

/-- JS `String.prototype.trim`: strip whitespace from both ends. -/
def jsTrim (s : String) : String :=
  String.mk
    (((s.data.dropWhile Char.isWhitespace).reverse.dropWhile
        Char.isWhitespace).reverse)

/-! ### Browser-side state touched by the ApiClient

`localStorage` holds at most one value under the key `"user"`.  The stored
payload either parses back into a `User` (`StoredVal.session`) or fails
`JSON.parse` (`StoredVal.malformed`). -/

/-- A persisted payload under the `"user"` storage key. -/
inductive StoredVal where
  | session (u : User)
  | malformed
deriving DecidableEq, Repr

/-- The browser-visible side effects of the ApiClient: the `"user"` storage
slot and whether `window.location.href = "/"` was assigned. -/
structure BrowserState where
  storage : Option StoredVal
  redirectedToRoot : Bool
deriving DecidableEq, Repr

/-! ### The transport layer

`fetch` either rejects with a network-level fault or yields a response
with a status and a raw body; `response.json()` is modelled by the `json`
field, `none` when the body does not decode. -/

/-- An HTTP response as seen through `fetch`, with the `response.json()`
decode result for payload type `α` precomputed. -/
structure HttpResponse (α : Type) where
  status : Nat
  body : String
  json : Option α
deriving DecidableEq, Repr

/-- `response.ok`: status in the inclusive range 200–299. -/
def HttpResponse.ok {α : Type} (r : HttpResponse α) : Bool :=
  200 ≤ r.status && r.status ≤ 299

/-- Outcome of one `fetch` call. -/
inductive FetchOutcome (α : Type) where
  | fault (msg : String)
  | resp (r : HttpResponse α)
deriving DecidableEq, Repr

/-! ### ApiClient (lib/api.ts) -/

/-- The failures `sendChatMessage` can produce, as an error taxonomy; the
source throws `Error` objects whose messages are given by
`ChatError.message`. -/
inductive ChatError where
  | sessionExpired
  | apiError (status : Nat) (body : String)
  | networkFailure (msg : String)
  | decodeFailure
deriving DecidableEq, Repr

/-- The `Error.message` strings the source attaches to each failure. -/
def ChatError.message : ChatError → String
  | .sessionExpired => "Session expired. Please log in again."
  | .apiError status body => "API error " ++ toString status ++ ": " ++ body
  | .networkFailure msg => msg
  | .decodeFailure => "Unexpected end of JSON input"

/-- `sendChatMessage` from lib/api.ts, as a function of the transport
outcome and the browser state.  On status 401 it removes the `"user"`
storage entry, redirects to `/`, and throws the session-expired error; on
any other non-ok status it throws `API error {status}: {body}`; otherwise
it returns the decoded `ChatResponse` unchanged. -/
def sendChatMessage (outcome : FetchOutcome ChatResponse) (st : BrowserState) :
    Except ChatError ChatResponse × BrowserState :=
  match outcome with
  | .fault msg => (.error (.networkFailure msg), st)
  | .resp r =>
    if r.status = 401 then
      (.error .sessionExpired, { storage := none, redirectedToRoot := true })
    else if !r.ok then
      (.error (.apiError r.status r.body), st)
    else
      match r.json with
      | some data => (.ok data, st)
      | none => (.error .decodeFailure, st)

/-- The JSON payload of the folders endpoint: `{folders?: Folder[]}`;
`data.folders ?? []` reads the possibly-missing field. -/
structure FoldersPayload where
  folders : Option (List Folder)
deriving DecidableEq, Repr

/-- `fetchFolders` from lib/api.ts.  A non-ok response yields `[]`; the
source has no try/catch, so a transport fault (and a JSON decode failure)
propagates as a thrown error, modelled by `Except.error` carrying the
message. -/
def fetchFolders (outcome : FetchOutcome FoldersPayload) :
    Except String (List Folder) :=
  match outcome with
  | .fault msg => .error msg
  | .resp r =>
    if !r.ok then .ok []
    else
      match r.json with
      | some data => .ok (data.folders.getD [])
      | none => .error "Unexpected end of JSON input"

/-! ### ChatWindow: the chat-turn state machine (components/ChatWindow.tsx)

`handleSend` is an async closure with one suspension point, the awaited
`sendChatMessage`.  It is embedded as two phases: `handleSendSubmit`
(everything before the await, returning the dispatched request if the
guard passed) and `handleSendResolve` (the continuation, for both the
fulfilled and the rejected branch).  The two `setTimeout` calls become
generation-tagged `StageTimer`s held in the state; `clearTimeout` removes
them, and a timer that fires while no longer scheduled is a no-op. -/

/-- `LoadingStage` from ChatWindow.tsx. -/
inductive LoadingStage where
  | idle
  | searching
  | reading
  | thinking
deriving DecidableEq, Repr

/-- One scheduled `setTimeout` handle of `handleSend`: it belongs to the
turn with generation `gen` and would set `loadingStage` to `target`
(`reading` after 3.5 s, `thinking` after 8 s). -/
structure StageTimer where
  gen : Nat
  target : LoadingStage
deriving DecidableEq, Repr

/-- The component state of `ChatWindow` relevant to a turn, plus the
bookkeeping that names the anonymous timer handles: `timers` is the set of
scheduled, not-yet-cleared timeouts and `gen` the generation id of the
next turn (one per accepted submission). -/
structure ChatState where
  messages : List Message
  input : String
  loadingStage : LoadingStage
  selectedFolderId : Option String
  timers : List StageTimer
  gen : Nat
deriving DecidableEq, Repr

/-- The request body handed to `sendChatMessage`:
`{message, history, folder_id}` plus the bearer token. -/
structure ChatRequest where
  message : String
  history : List (Role × String)
  token : String
  folder_id : Option String
deriving DecidableEq, Repr

/-- Result of the submit phase: the updated component state, and the
dispatched request when the guard accepted the submission. -/
structure SubmitResult where
  state : ChatState
  request : Option ChatRequest
deriving DecidableEq, Repr

/-- The submit phase of `handleSend`: trim the input; reject (no-op) when
the text is empty or a turn is in flight; otherwise append the user
message, clear the input, enter `searching`, schedule the two stage
timers, and dispatch the request built from the last ≤ 10 prior history
entries reduced to (role, content) pairs.  `msgId` and `now` stand for
`generateId()` and `new Date()`. -/
def handleSendSubmit (token msgId : String) (now : Nat) (s : ChatState) :
    SubmitResult :=
  let text := jsTrim s.input
  if text = "" ∨ s.loadingStage ≠ .idle then
    { state := s, request := none }
  else
    let userMsg : Message :=
      { id := msgId, role := .user, content := text, timestamp := now }
    let history :=
      (s.messages.drop (s.messages.length - 10)).map fun m => (m.role, m.content)
    { state :=
        { s with
          messages := s.messages ++ [userMsg]
          input := ""
          loadingStage := .searching
          timers := s.timers ++ [⟨s.gen, .reading⟩, ⟨s.gen, .thinking⟩]
          gen := s.gen + 1 }
      request := some
        { message := text
          history := history
          token := token
          folder_id :=
            match s.selectedFolderId with
            | some fid => if fid = "" then none else some fid
            | none => none } }

/-- The assistant `Message` built from a fulfilled `ChatResponse`:
error text with the `❌` failure prefix when `error` is JS-truthy,
otherwise the answer, otherwise the placeholder; steps and tokens copied;
`isError := !!response.error`. -/
def mkAssistantMsg (msgId : String) (now : Nat) (response : ChatResponse) :
    Message :=
  { id := msgId
    role := .assistant
    content :=
      if jsTruthy response.error then "❌ " ++ response.error.getD ""
      else if response.answer ≠ "" then response.answer
      else "No response generated."
    timestamp := now
    steps := some response.intermediate_steps
    isError := some (jsTruthy response.error)
    tokens := some response.tokens }

/-- The resolve phase of `handleSend` for the turn with generation `g`:
on both the fulfilled and the rejected branch it clears that turn's two
timers, returns the stage to `idle`, and appends the assistant message
(the decoded response, or the `Failed to reach the backend: …` error
message). -/
def handleSendResolve (g : Nat) (result : Except ChatError ChatResponse)
    (msgId : String) (now : Nat) (s : ChatState) : ChatState :=
  let cleared := s.timers.filter fun t => t.gen ≠ g
  match result with
  | .ok response =>
    { s with
      timers := cleared
      loadingStage := .idle
      messages := s.messages ++ [mkAssistantMsg msgId now response] }
  | .error e =>
    { s with
      timers := cleared
      loadingStage := .idle
      messages := s.messages ++
        [{ id := msgId
           role := .assistant
           content := "Failed to reach the backend: " ++ e.message
           timestamp := now
           isError := some true }] }

/-- A scheduled timer fires: if it is still scheduled it sets the stage it
was armed with and unschedules itself; a cleared (or superseded) timer is
a no-op. -/
def timerFire (t : StageTimer) (s : ChatState) : ChatState :=
  if t ∈ s.timers then
    { s with loadingStage := t.target, timers := s.timers.erase t }
  else s

/-! ### Home: OAuth-callback ingestion and session restore (app/page.tsx)

The mount effect of `Home` reads the query parameters; when `token` and
`email` are both JS-truthy it ingests a Session (persists it, sets the
user, and scrubs the URL via `history.replaceState`), otherwise it falls
back to restoring from local storage, removing a payload `JSON.parse`
rejects. -/

/-- The four query parameters of the OAuth callback; `URLSearchParams.get`
yields `null` (`none`) for an absent parameter. -/
structure CallbackParams where
  token : Option String
  name : Option String
  email : Option String
  picture : Option String
deriving DecidableEq, Repr

/-- The query string after `window.history.replaceState({}, "", "/")`. -/
def emptyParams : CallbackParams :=
  { token := none, name := none, email := none, picture := none }

/-- The page state the `Home` mount effect reads and writes: the `"user"`
storage slot, the `user` React state, and the current query string. -/
structure PageState where
  storage : Option StoredVal
  user : Option User
  query : CallbackParams
deriving DecidableEq, Repr

/-- The `else` branch of the `Home` mount effect: restore the session from
local storage; a payload that fails `JSON.parse` is removed and the user
left unset. -/
def restoreFromStorage (s : PageState) : PageState :=
  match s.storage with
  | some (.session u) => { s with user := some u }
  | some .malformed => { s with storage := none }
  | none => s

/-- The `Home` mount effect: when both `token` and `email` are JS-truthy,
build the `User` (name defaulting to `"User"`, picture to `""`), persist
it, set it, and clean the URL; otherwise attempt a restore from storage. -/
def homeEffect (s : PageState) : PageState :=
  if jsTruthy s.query.token && jsTruthy s.query.email then
    let newUser : User :=
      { token := s.query.token.getD ""
        name := if jsTruthy s.query.name then s.query.name.getD "" else "User"
        email := s.query.email.getD ""
        picture := if jsTruthy s.query.picture then s.query.picture.getD "" else "" }
    { storage := some (.session newUser), user := some newUser, query := emptyParams }
  else
    restoreFromStorage s

/-! ### FolderSelector (components/FolderSelector.tsx)

The dropdown fetches the folder catalog through a `useEffect` whose
dependencies are `[isOpen, token, folders.length]` and whose guard is
`isOpen && folders.length === 0`.  The embedding applies the effect
exactly when one of those dependencies changed, counts issued
`fetchFolders` calls, and tracks how many are still unresolved. -/

/-- The `FolderSelector` component state, instrumented with the number of
`fetchFolders` calls issued so far (`fetchCalls`) and the number still
unresolved (`inFlightFetches`). -/
structure SelectorState where
  folders : List Folder
  isOpen : Bool
  search : String
  loading : Bool
  inFlightFetches : Nat
  fetchCalls : Nat
deriving DecidableEq, Repr

/-- The body of the fetch effect: when the dropdown is open and the
catalog cache is empty, set `loading` and issue a `fetchFolders` call. -/
def runFetchEffect (s : SelectorState) : SelectorState :=
  if s.isOpen && s.folders.length = 0 then
    { s with
      loading := true
      inFlightFetches := s.inFlightFetches + 1
      fetchCalls := s.fetchCalls + 1 }
  else s

/-- React re-runs the effect only when a dependency changed; `token` is
constant here, so the tracked dependencies are `isOpen` and
`folders.length`. -/
def applyEffect (old new : SelectorState) : SelectorState :=
  if old.isOpen = new.isOpen ∧ old.folders.length = new.folders.length then new
  else runFetchEffect new

/-- The externally observable events of the dropdown. -/
inductive SelectorEvent where
  | toggle
  | close
  | resolve (result : List Folder)
  | setSearch (q : String)
deriving DecidableEq, Repr

/-- One step of the `FolderSelector`: the header button toggles `isOpen`,
the backdrop closes, a resolving `fetchFolders` promise stores its result
and drops `loading`, and typing updates the search text; after each state
change the fetch effect re-runs when its dependencies changed. -/
def selectorStep (s : SelectorState) : SelectorEvent → SelectorState
  | .toggle => applyEffect s { s with isOpen := !s.isOpen }
  | .close => applyEffect s { s with isOpen := false }
  | .resolve result =>
    applyEffect s
      { s with
        folders := result
        loading := false
        inFlightFetches := s.inFlightFetches - 1 }
  | .setSearch q => { s with search := q }

/-- A fresh `FolderSelector`: closed, empty cache, nothing issued. -/
def selectorInit : SelectorState :=
  { folders := [], isOpen := false, search := "", loading := false,
    inFlightFetches := 0, fetchCalls := 0 }

/-- Run the dropdown over a sequence of events. -/
def selectorRun (s : SelectorState) (es : List SelectorEvent) : SelectorState :=
  es.foldl selectorStep s

/-! ### Sample values used by witnesses -/

/-- An idle chat state with a pending input. -/
def sampleIdle : ChatState :=
  { messages := [], input := "hello", loadingStage := .idle,
    selectedFolderId := none, timers := [], gen := 0 }

/-- A mid-turn chat state: generation 0 in flight, its two timers armed. -/
def sampleInFlight : ChatState :=
  { messages := [], input := "", loadingStage := .searching,
    selectedFolderId := none,
    timers := [⟨0, .reading⟩, ⟨0, .thinking⟩], gen := 1 }

/-- Twelve prior history entries with distinct contents. -/
def twelveMessages : List Message :=
  (List.range 12).map fun i =>
    { id := toString i, role := .user, content := toString i, timestamp := i }

/-- An idle chat state holding twelve prior history entries. -/
def sampleTwelve : ChatState :=
  { messages := twelveMessages, input := "q", loadingStage := .idle,
    selectedFolderId := none, timers := [], gen := 12 }

/-! ### Claims about the ApiClient -/

/-- C3: `sendChatMessage` maps a 401 status to the session-expired error
while clearing the persisted session and redirecting; any other non-ok
status to `ApiError(status, body)` with the browser state untouched; and
a decoded ok response to that `ChatResponse`, unchanged. -/
theorem sendChat_error_contract (r : HttpResponse ChatResponse)
    (st : BrowserState) :
    (r.status = 401 →
      sendChatMessage (.resp r) st =
        (.error .sessionExpired, { storage := none, redirectedToRoot := true })) ∧
    (r.status ≠ 401 → r.ok = false →
      sendChatMessage (.resp r) st = (.error (.apiError r.status r.body), st)) ∧
    (∀ data, r.ok = true → r.json = some data →
      sendChatMessage (.resp r) st = (.ok data, st)) := by
  refine ⟨fun h => ?_, fun h₁ h₂ => ?_, fun data hok hjson => ?_⟩
  · simp [sendChatMessage, h]
  · simp [sendChatMessage, h₁, h₂]
  · have hne : r.status ≠ 401 := by
      simp [HttpResponse.ok] at hok
      omega
    simp [sendChatMessage, hne, hok, hjson]

/-- Witness for C3: a 401 with any stored session yields the
session-expired error and a cleared, redirected browser state. -/
theorem sendChat_error_contract_witness :
    sendChatMessage (.resp ⟨401, "unauthorized", none⟩)
        ⟨some .malformed, false⟩ =
      (.error .sessionExpired, { storage := none, redirectedToRoot := true }) :=
  (sendChat_error_contract ⟨401, "unauthorized", none⟩ ⟨some .malformed, false⟩).1 rfl

/-- Counterexample to C6: under a transport-level network fault
`fetchFolders` propagates the rejection instead of returning the empty
sequence — the source lacks the try/catch that `fetchUserInfo` and
`logoutUser` have. -/
theorem fetchFolders_raises_on_network_fault :
    fetchFolders (FetchOutcome.fault "ECONNREFUSED") =
      Except.error "ECONNREFUSED" ∧
    fetchFolders (FetchOutcome.fault "ECONNREFUSED") ≠ Except.ok [] :=
  ⟨rfl, fun h => Except.noConfusion h⟩

/-- C6 amended: `fetchFolders` returns the empty sequence, without
raising, on any non-success HTTP response; a transport-level network
fault, however, propagates to the caller as a raised error. -/
theorem fetchFolders_nonOk_empty (r : HttpResponse FoldersPayload)
    (m : String) :
    (r.ok = false → fetchFolders (.resp r) = .ok []) ∧
    fetchFolders (.fault m) = .error m := by
  refine ⟨fun h => ?_, rfl⟩
  simp [fetchFolders, h]

/-- Witness for the amended C6: a 500 response yields the empty folder
list. -/
theorem fetchFolders_nonOk_empty_witness :
    fetchFolders (.resp ⟨500, "internal error", none⟩) = .ok [] :=
  (fetchFolders_nonOk_empty ⟨500, "internal error", none⟩ "x").1 (by decide)

/-! ### Claims about the chat-turn state machine -/

/-- C2: a `Submit` with empty or whitespace-only text, or while a turn is
in flight, is a complete no-op — state unchanged, no request dispatched —
and conversely any dispatched request was issued from the `idle` stage
with non-blank text, so no second network call can be dispatched while
stage ≠ Idle. -/
theorem submit_guard (token msgId : String) (now : Nat) (s : ChatState) :
    (jsTrim s.input = "" ∨ s.loadingStage ≠ .idle →
      handleSendSubmit token msgId now s = { state := s, request := none }) ∧
    (∀ req, (handleSendSubmit token msgId now s).request = some req →
      s.loadingStage = .idle ∧ jsTrim s.input ≠ "") := by
  constructor
  · intro h
    simp only [handleSendSubmit]
    rw [if_pos h]
  · intro req hreq
    by_cases h : jsTrim s.input = "" ∨ s.loadingStage ≠ .idle
    · simp only [handleSendSubmit] at hreq
      rw [if_pos h] at hreq
      exact absurd hreq (by simp)
    · push_neg at h
      exact ⟨h.2, h.1⟩

/-- Witness for C2: a whitespace-only input is rejected as a no-op. -/
theorem submit_guard_witness :
    handleSendSubmit "tok" "id1" 0
        ⟨[], "   ", .idle, none, [], 0⟩ =
      { state := ⟨[], "   ", .idle, none, [], 0⟩, request := none } :=
  (submit_guard "tok" "id1" 0 ⟨[], "   ", .idle, none, [], 0⟩).1
    (Or.inl (by decide))

/-- C1: whatever way the turn with generation `g` resolves — success or
any `ChatError` (ApiError, NetworkFailure, SessionExpired) — the stage
returns to `idle`, no timer of that generation remains scheduled, and a
timer of that generation firing afterwards is a no-op on the state. -/
theorem resolve_idle_and_timers_cancelled (g : Nat)
    (result : Except ChatError ChatResponse) (msgId : String) (now : Nat)
    (s : ChatState) :
    (handleSendResolve g result msgId now s).loadingStage = .idle ∧
    (∀ t ∈ (handleSendResolve g result msgId now s).timers, t.gen ≠ g) ∧
    (∀ t : StageTimer, t.gen = g →
      timerFire t (handleSendResolve g result msgId now s) =
        handleSendResolve g result msgId now s) := by
  have htimers : (handleSendResolve g result msgId now s).timers =
      s.timers.filter fun t => t.gen ≠ g := by
    cases result <;> rfl
  have hmem : ∀ t ∈ (handleSendResolve g result msgId now s).timers, t.gen ≠ g := by
    intro t ht
    rw [htimers] at ht
    simpa using (List.of_mem_filter ht)
  refine ⟨by cases result <;> rfl, hmem, fun t hgen => ?_⟩
  have : t ∉ (handleSendResolve g result msgId now s).timers :=
    fun hmem' => (hmem t hmem') hgen
  simp [timerFire, this]

/-- Witness for C1: resolving the in-flight generation-0 turn returns the
stage to idle, and its `reading` timer firing afterwards changes
nothing. -/
theorem resolve_idle_and_timers_cancelled_witness :
    (handleSendResolve 0 (.ok ⟨"hi", [], 1, none⟩) "a" 1 sampleInFlight).loadingStage
      = .idle ∧
    timerFire ⟨0, .reading⟩
        (handleSendResolve 0 (.ok ⟨"hi", [], 1, none⟩) "a" 1 sampleInFlight) =
      handleSendResolve 0 (.ok ⟨"hi", [], 1, none⟩) "a" 1 sampleInFlight :=
  ⟨(resolve_idle_and_timers_cancelled 0 (.ok ⟨"hi", [], 1, none⟩) "a" 1
      sampleInFlight).1,
   (resolve_idle_and_timers_cancelled 0 (.ok ⟨"hi", [], 1, none⟩) "a" 1
      sampleInFlight).2.2 ⟨0, .reading⟩ rfl⟩

/-- C4: a successful resolve appends exactly the assistant message built
from the response; that message's content is the error text with the
failure prefix when the error field is non-empty, otherwise the answer,
otherwise the fallback placeholder; it carries the response's steps and
token count, and its `isError` flag is true exactly when the error field
is non-empty. -/
theorem resolve_success_message (g : Nat) (msgId : String) (now : Nat)
    (response : ChatResponse) (s : ChatState) :
    (handleSendResolve g (.ok response) msgId now s).messages =
      s.messages ++ [mkAssistantMsg msgId now response] ∧
    ((mkAssistantMsg msgId now response).isError = some true ↔
      jsTruthy response.error = true) ∧
    (∀ e, response.error = some e → e ≠ "" →
      (mkAssistantMsg msgId now response).content = "❌ " ++ e) ∧
    (jsTruthy response.error = false → response.answer ≠ "" →
      (mkAssistantMsg msgId now response).content = response.answer) ∧
    (jsTruthy response.error = false → response.answer = "" →
      (mkAssistantMsg msgId now response).content = "No response generated.") ∧
    (mkAssistantMsg msgId now response).steps =
      some response.intermediate_steps ∧
    (mkAssistantMsg msgId now response).tokens = some response.tokens := by
  refine ⟨rfl, by simp [mkAssistantMsg], fun e he hne => ?_,
    fun hfalse hans => ?_, fun hfalse hans => ?_, rfl, rfl⟩
  · simp [mkAssistantMsg, jsTruthy, he, hne]
  · simp [mkAssistantMsg, hfalse, hans]
  · simp [mkAssistantMsg, hfalse, hans]

/-- Witness for C4 (the spec's end-to-end example): the response
`{answer:"", intermediate_steps:[], tokens:0, error:"backend timeout"}`
yields an assistant message embedding `"backend timeout"` and marked
as an error. -/
theorem resolve_success_message_witness :
    (mkAssistantMsg "a" 0 ⟨"", [], 0, some "backend timeout"⟩).content =
      "❌ " ++ "backend timeout" ∧
    ((mkAssistantMsg "a" 0 ⟨"", [], 0, some "backend timeout"⟩).isError =
        some true ↔
      jsTruthy (some "backend timeout") = true) :=
  ⟨(resolve_success_message 0 "a" 0 ⟨"", [], 0, some "backend timeout"⟩
      sampleIdle).2.2.1 "backend timeout" rfl (by decide),
   (resolve_success_message 0 "a" 0 ⟨"", [], 0, some "backend timeout"⟩
      sampleIdle).2.1⟩

/-- C5: an accepted submit dispatches a request whose history is a suffix
of the prior history reduced to (role, content) pairs in original order —
the newly appended user message excluded — of length `min 10 n` for `n`
prior entries, namely the last at-most-10 of them. -/
theorem submit_history_window (token msgId : String) (now : Nat)
    (s : ChatState) (hne : jsTrim s.input ≠ "")
    (hidle : s.loadingStage = .idle) :
    ∃ req, (handleSendSubmit token msgId now s).request = some req ∧
      req.history <:+ s.messages.map (fun m => (m.role, m.content)) ∧
      req.history.length = min 10 s.messages.length ∧
      req.history = (s.messages.drop (s.messages.length - 10)).map
        (fun m => (m.role, m.content)) := by
  have hcond : ¬(jsTrim s.input = "" ∨ s.loadingStage ≠ .idle) := by
    push_neg
    exact ⟨hne, hidle⟩
  simp only [handleSendSubmit]
  rw [if_neg hcond]
  refine ⟨_, rfl, ?_, ?_, rfl⟩
  · rw [List.map_drop]
    exact List.drop_suffix _ _
  · simp only [List.length_map, List.length_drop]
    omega

/-- Witness for C5 (the spec's windowing example): with 12 prior history
entries, the dispatched request carries exactly the last 10 of them as
(role, content) pairs, in original order. -/
theorem submit_history_window_witness :
    (∃ req, (handleSendSubmit "t" "id" 0 sampleTwelve).request = some req ∧
      req.history <:+ sampleTwelve.messages.map (fun m => (m.role, m.content)) ∧
      req.history.length = min 10 sampleTwelve.messages.length ∧
      req.history = (sampleTwelve.messages.drop
        (sampleTwelve.messages.length - 10)).map
          (fun m => (m.role, m.content))) ∧
    (handleSendSubmit "t" "id" 0 sampleTwelve).request.map ChatRequest.history =
      some (((List.range 12).drop 2).map fun i => (Role.user, toString i)) :=
  ⟨submit_history_window "t" "id" 0 sampleTwelve (by decide) rfl, by decide⟩

/-! ### Claims about OAuth ingestion and session restore -/

/-- The spec's example callback query: `token=T1, email=e@x.com, name=Jo,
picture=""`. -/
def oauthParams : CallbackParams :=
  { token := some "T1", name := some "Jo", email := some "e@x.com",
    picture := some "" }

/-- The Session the example callback should produce. -/
def ingestedUser : User :=
  { email := "e@x.com", name := "Jo", picture := "", token := "T1" }

/-- C7: ingesting the example callback yields exactly the expected
Session, persists it, scrubs the query string, and a subsequent effect
run on the persisted state with no callback parameters restores that same
Session instead of ingesting again. -/
theorem oauth_ingestion_replay_safe :
    (homeEffect ⟨none, none, oauthParams⟩).user = some ingestedUser ∧
    (homeEffect ⟨none, none, oauthParams⟩).storage =
      some (.session ingestedUser) ∧
    (homeEffect ⟨none, none, oauthParams⟩).query = emptyParams ∧
    homeEffect
        { storage := (homeEffect ⟨none, none, oauthParams⟩).storage,
          user := none, query := emptyParams } =
      { storage := some (.session ingestedUser), user := some ingestedUser,
        query := emptyParams } := by
  decide

/-- C9: ingestion happens only when both `token` and `email` are present
(otherwise the effect is exactly the storage-restore path); when it
happens with `name` absent the Session's name defaults to `"User"`, and
with `picture` absent the picture defaults to `""`. -/
theorem oauth_param_defaults (s : PageState) :
    (s.query.token = none ∨ s.query.email = none →
      homeEffect s = restoreFromStorage s) ∧
    (∀ t e, s.query.token = some t → t ≠ "" → s.query.email = some e →
      e ≠ "" → s.query.name = none →
      ∃ u, (homeEffect s).user = some u ∧ u.name = "User" ∧
        u.token = t ∧ u.email = e) ∧
    (∀ t e, s.query.token = some t → t ≠ "" → s.query.email = some e →
      e ≠ "" → s.query.picture = none →
      ∃ u, (homeEffect s).user = some u ∧ u.picture = "") := by
  refine ⟨fun h => ?_, fun t e ht hte he hee hn => ?_,
    fun t e ht hte he hee hp => ?_⟩
  · rcases h with h | h <;> simp [homeEffect, jsTruthy, h]
  · have hcond : (jsTruthy s.query.token && jsTruthy s.query.email) = true := by
      simp [jsTruthy, ht, he, hte, hee]
    refine ⟨{ token := s.query.token.getD ""
              name := if jsTruthy s.query.name then s.query.name.getD ""
                      else "User"
              email := s.query.email.getD ""
              picture := if jsTruthy s.query.picture then s.query.picture.getD ""
                         else "" }, ?_, ?_, ?_, ?_⟩
    · simp [homeEffect, hcond]
    · simp [jsTruthy, hn]
    · simp [ht]
    · simp [he]
  · have hcond : (jsTruthy s.query.token && jsTruthy s.query.email) = true := by
      simp [jsTruthy, ht, he, hte, hee]
    refine ⟨{ token := s.query.token.getD ""
              name := if jsTruthy s.query.name then s.query.name.getD ""
                      else "User"
              email := s.query.email.getD ""
              picture := if jsTruthy s.query.picture then s.query.picture.getD ""
                         else "" }, ?_, ?_⟩
    · simp [homeEffect, hcond]
    · simp [jsTruthy, hp]

/-- Witness for C9: a callback with `token` absent falls back to the
restore path, and one with `token`, `email` but no `name` produces the
default name `"User"`. -/
theorem oauth_param_defaults_witness :
    (homeEffect ⟨some .malformed, none, ⟨none, some "Jo", some "e@x.com", none⟩⟩ =
      restoreFromStorage
        ⟨some .malformed, none, ⟨none, some "Jo", some "e@x.com", none⟩⟩) ∧
    (∃ u, (homeEffect ⟨none, none, ⟨some "T1", none, some "e@x.com", none⟩⟩).user =
        some u ∧ u.name = "User" ∧ u.token = "T1" ∧ u.email = "e@x.com") :=
  ⟨(oauth_param_defaults
      ⟨some .malformed, none, ⟨none, some "Jo", some "e@x.com", none⟩⟩).1
        (Or.inl rfl),
   (oauth_param_defaults
      ⟨none, none, ⟨some "T1", none, some "e@x.com", none⟩⟩).2.1
        "T1" "e@x.com" rfl (by decide) rfl (by decide) rfl⟩

/-- C10: a restore that hits a present-but-malformed persisted payload
yields no user, deletes the malformed entry from storage, and a
subsequent effect run finds no persisted state and changes nothing. -/
theorem restore_malformed_removes (s : PageState)
    (hq : s.query.token = none) (hm : s.storage = some .malformed)
    (hu : s.user = none) :
    (homeEffect s).user = none ∧ (homeEffect s).storage = none ∧
    homeEffect (homeEffect s) = homeEffect s := by
  have h1 : homeEffect s = { s with storage := none } := by
    simp [homeEffect, jsTruthy, hq, restoreFromStorage, hm]
  rw [h1]
  exact ⟨hu, rfl, by simp [homeEffect, jsTruthy, hq, restoreFromStorage]⟩

/-- Witness for C10: a malformed payload under an empty query is removed
and the second run is a no-op. -/
theorem restore_malformed_removes_witness :
    (homeEffect ⟨some .malformed, none, emptyParams⟩).user = none ∧
    (homeEffect ⟨some .malformed, none, emptyParams⟩).storage = none ∧
    homeEffect (homeEffect ⟨some .malformed, none, emptyParams⟩) =
      homeEffect ⟨some .malformed, none, emptyParams⟩ :=
  restore_malformed_removes ⟨some .malformed, none, emptyParams⟩ rfl rfl rfl

/-! ### Claims about the folder selector -/

/-- Counterexample to C8: open, close, re-open.  The first open issues a
fetch that is still in flight at the second open (`inFlightFetches = 1`),
yet the second open issues another `fetchFolders` call (`fetchCalls`
rises to 2) — the guard is the empty cache, not an in-flight flag. -/
theorem folder_reopen_refetch_counterexample :
    (selectorRun selectorInit [.toggle, .toggle]).inFlightFetches = 1 ∧
    (selectorRun selectorInit [.toggle, .toggle]).fetchCalls = 1 ∧
    (selectorRun selectorInit [.toggle, .toggle, .toggle]).fetchCalls = 2 := by
  decide

/-- C8 amended: an open issues exactly one `fetchFolders` call precisely
when the folder catalog cache is empty at that moment — even when a fetch
is already in flight, so a re-open during an in-flight fetch issues a
second call; once the catalog is non-empty an open issues no call and
only flips the dropdown open. -/
theorem folder_open_fetch_guard (s : SelectorState) (h : s.isOpen = false) :
    (selectorStep s .toggle).fetchCalls =
      (if s.folders.length = 0 then s.fetchCalls + 1 else s.fetchCalls) ∧
    (s.folders.length ≠ 0 →
      selectorStep s .toggle = { s with isOpen := true }) := by
  constructor
  · by_cases hf : s.folders.length = 0 <;>
      simp [selectorStep, applyEffect, runFetchEffect, h, hf]
  · intro hf
    simp [selectorStep, applyEffect, runFetchEffect, h, hf]

/-- Witness for the amended C8: a first open on the empty cache issues
one call; an open with a cached catalog only opens the dropdown. -/
theorem folder_open_fetch_guard_witness :
    (selectorStep selectorInit .toggle).fetchCalls =
      (if selectorInit.folders.length = 0 then selectorInit.fetchCalls + 1
       else selectorInit.fetchCalls) ∧
    selectorStep ⟨[⟨"1", "Engineering"⟩], false, "", false, 0, 1⟩ .toggle =
      { folders := [⟨"1", "Engineering"⟩], isOpen := true, search := "",
        loading := false, inFlightFetches := 0, fetchCalls := 1 } :=
  ⟨(folder_open_fetch_guard selectorInit rfl).1,
   (folder_open_fetch_guard
      ⟨[⟨"1", "Engineering"⟩], false, "", false, 0, 1⟩ rfl).2 (by decide)⟩

end DriveChatbot
